import Mathlib

/-!
Shallow embedding of the AddressSanitizer per-thread stack bookkeeping from
`libsanitizer/asan/asan_thread.h` (class `AsanThread` and the two scoped
reentrancy guards), together with theorems settling the specification claims
about it.

Modelling conventions:
* `uptr` is `Nat`; additions that can overflow are taken modulo `uptrMod = 2^64`.
* A `StackDescriptor*` that must point into the thread's own `stacks_[3]`
  array (or be null, as in the zero-initialized state) is `Option (Fin 3)`:
  `none` is the null pointer, `some i` points at `stacks_[i]`.
* An operation that would dereference a null pointer (undefined behavior in
  the C++ source) returns `none` at its outer `Option` layer.
* The external call `FakeStack::Destroy(tid)` is recorded as an event
  `(pointer value, tid)` in a returned list; the thread-local fast-path slot
  written by `SetTLSFakeStack` is carried as a field of the thread state.
-/

namespace Asan

/-- Modulus of `uptr` arithmetic (64-bit pointers). -/
def uptrMod : Nat := 2 ^ 64

/-- Source `struct StackDescriptor { uptr stack_top; uptr stack_bottom; uptr stack_size; }`. -/
structure StackDescriptor where
  stack_top : Nat
  stack_bottom : Nat
  stack_size : Nat
deriving Repr, DecidableEq

/-- The all-zero descriptor, the content of each `stacks_[i]` in the
zero-initialized state. -/
def zeroDescriptor : StackDescriptor := ⟨0, 0, 0⟩

/-- A `StackDescriptor*` restricted to the thread's own `stacks_[3]` array:
`none` is the null pointer, `some i` points at `stacks_[i]`. -/
abbrev StackPtr := Option (Fin 3)

/-- The state of one `AsanThread` object, restricted to the fields the claims
are about.  `tls_fake_stack` models the thread-local slot written by
`SetTLSFakeStack`; `fake_stack_` is the raw pointer value of the `FakeStack *`
field (`0` = null, `1` = the low sentinel, `> 1` = a real object). -/
structure AsanThread where
  stacks_ : Fin 3 → StackDescriptor
  temp_stack_ : StackPtr
  next_stack_ : StackPtr
  previous_stack_ : StackPtr
  fake_stack_ : Nat
  tls_fake_stack : Nat
  unwinding_ : Bool
  in_deadly_signal_ : Bool

/-- The zero-initialized `AsanThread` (it is allocated via `mmap()`, so every
field starts as all-zero bits: null pointers, zero descriptors, false flags). -/
def zeroThread : AsanThread where
  stacks_ := fun _ => zeroDescriptor
  temp_stack_ := none
  next_stack_ := none
  previous_stack_ := none
  fake_stack_ := 0
  tls_fake_stack := 0
  unwinding_ := false
  in_deadly_signal_ := false

/-- Write descriptor `d` into slot `i` of the `stacks_` array. -/
def updSlot (f : Fin 3 → StackDescriptor) (i : Fin 3) (d : StackDescriptor) :
    Fin 3 → StackDescriptor :=
  fun j => if j = i then d else f j

/-- Source `AddrIsInStack(StackDescriptor *stack, uptr addr)` on the pointee:
`addr >= stack->stack_bottom && addr < stack->stack_top`. -/
def AddrIsInStack (stack : StackDescriptor) (addr : Nat) : Bool :=
  decide (stack.stack_bottom ≤ addr) && decide (addr < stack.stack_top)

/-- Source `AddrIsInStack(StackDescriptor *stack, uptr addr)` on the pointer itself:
dereferencing a null pointer is undefined behavior, hence `none`. -/
def AddrIsInStackP (t : AsanThread) (stack : StackPtr) (addr : Nat) : Option Bool :=
  match stack with
  | none => none
  | some i => some (AddrIsInStack (t.stacks_ i) addr)

/-- Source `CurrentStack()`: tests whether the caller's own stack address `sp`
(the address of the local variable `local` in the source) lies in
`previous_stack_`'s range; if so returns `previous_stack_`, else
`next_stack_`.  The outer `Option` is `none` when the test itself
dereferences a null `previous_stack_`. -/
def CurrentStack (t : AsanThread) (sp : Nat) : Option StackPtr :=
  match AddrIsInStackP t t.previous_stack_ sp with
  | none => none
  | some true => some t.previous_stack_
  | some false => some t.next_stack_

/-- Source `uptr stack_top() { return CurrentStack()->stack_top; }`; `none` when
evaluation dereferences a null pointer. -/
def stack_top (t : AsanThread) (sp : Nat) : Option Nat :=
  match CurrentStack t sp with
  | some (some i) => some ((t.stacks_ i).stack_top)
  | _ => none

/-- Source `uptr stack_bottom() { return CurrentStack()->stack_bottom; }`. -/
def stack_bottom (t : AsanThread) (sp : Nat) : Option Nat :=
  match CurrentStack t sp with
  | some (some i) => some ((t.stacks_ i).stack_bottom)
  | _ => none

/-- Source `uptr stack_size() { return CurrentStack()->stack_size; }`. -/
def stack_size (t : AsanThread) (sp : Nat) : Option Nat :=
  match CurrentStack t sp with
  | some (some i) => some ((t.stacks_ i).stack_size)
  | _ => none

/-- Source `bool AddrIsInStack(uptr addr) { return AddrIsInStack(CurrentStack(), addr); }`.
`sp` is the caller's own stack address used by `CurrentStack`. -/
def AddrIsInStackT (t : AsanThread) (sp addr : Nat) : Option Bool :=
  match CurrentStack t sp with
  | none => none
  | some p => AddrIsInStackP t p addr

/-- Source `SetUserStack(uptr base, uptr size)`: writes the new range through
`temp_stack_` (null dereference if `temp_stack_` is null), then performs the
three pointer reassignments `previous_stack_ = next_stack_;
next_stack_ = temp_stack_; temp_stack_ = oprev;`. -/
def SetUserStack (t : AsanThread) (base size : Nat) : Option AsanThread :=
  match t.temp_stack_ with
  | none => none
  | some tm =>
    some { t with
      stacks_ := updSlot t.stacks_ tm ⟨(base + size) % uptrMod, base, size⟩
      previous_stack_ := t.next_stack_
      next_stack_ := t.temp_stack_
      temp_stack_ := t.previous_stack_ }

/-- Source `RestorePreviousUserStack()`:
`SetUserStack(previous_stack_->stack_bottom, previous_stack_->stack_size);`
(null dereference if `previous_stack_` is null). -/
def RestorePreviousUserStack (t : AsanThread) : Option AsanThread :=
  match t.previous_stack_ with
  | none => none
  | some p => SetUserStack t ((t.stacks_ p).stack_bottom) ((t.stacks_ p).stack_size)

/-- Source `bool has_fake_stack() { return (reinterpret_cast<uptr>(fake_stack_) > 1); }`. -/
def has_fake_stack (t : AsanThread) : Bool :=
  decide (1 < t.fake_stack_)

/-- Source `SetTLSFakeStack(p)`: writes the thread-local fast-path slot. -/
def SetTLSFakeStack (t : AsanThread) (p : Nat) : AsanThread :=
  { t with tls_fake_stack := p }

/-- Source `void DeleteFakeStack(int tid)`.  Returns the new thread state together
with the list of `FakeStack::Destroy` invocations performed (pointer value,
tid). -/
def DeleteFakeStack (t : AsanThread) (tid : Int) : AsanThread × List (Nat × Int) :=
  if t.fake_stack_ = 0 then (t, [])
  else
    let fs := t.fake_stack_
    let t1 := SetTLSFakeStack { t with fake_stack_ := 0 } 0
    (t1, [(fs, tid)])

/-- Source `FakeStack *fake_stack()`.  `detect` is the global flag
`__asan_option_detect_stack_use_after_return`; `lazyInit` is
`AsyncSignalSafeLazyInitFakeStack` (its body lives in `asan_thread.cc`, so it
is a parameter here).  The result pointer value `0` models returning `nullptr`. -/
def fake_stack (detect : Bool) (lazyInit : AsanThread → Nat × AsanThread)
    (t : AsanThread) : Nat × AsanThread :=
  if detect = false then (0, t)
  else if has_fake_stack t = false then lazyInit t
  else (t.fake_stack_, t)

/-- Source `void setUnwinding(bool b) { unwinding_ = b; }`. -/
def setUnwinding (t : AsanThread) (b : Bool) : AsanThread :=
  { t with unwinding_ := b }

/-- Source `void setInDeadlySignal(bool b) { in_deadly_signal_ = b; }`. -/
def setInDeadlySignal (t : AsanThread) (b : Bool) : AsanThread :=
  { t with in_deadly_signal_ := b }

/-- Constructor body of `ScopedUnwinding`: `t->setUnwinding(true);` with NO
null check — on a null argument it dereferences the null pointer (`none`). -/
def ScopedUnwindingEnter (ot : Option AsanThread) : Option (Option AsanThread) :=
  match ot with
  | none => none
  | some t => some (some (setUnwinding t true))

/-- Destructor body of `ScopedUnwinding`: `thread->setUnwinding(false);`,
again without a null check. -/
def ScopedUnwindingExit (ot : Option AsanThread) : Option (Option AsanThread) :=
  match ot with
  | none => none
  | some t => some (some (setUnwinding t false))

/-- Constructor body of `ScopedDeadlySignal`:
`if (thread) thread->setInDeadlySignal(true);` — a no-op on null. -/
def ScopedDeadlySignalEnter (ot : Option AsanThread) : Option (Option AsanThread) :=
  match ot with
  | none => some none
  | some t => some (some (setInDeadlySignal t true))

/-- Destructor body of `ScopedDeadlySignal`:
`if (thread) thread->setInDeadlySignal(false);`. -/
def ScopedDeadlySignalExit (ot : Option AsanThread) : Option (Option AsanThread) :=
  match ot with
  | none => some none
  | some t => some (some (setInDeadlySignal t false))

/-- The documented descriptor invariant `stack_size == stack_top - stack_bottom`
(header line 63), read in `uptr` arithmetic: `top = (bottom + size) mod 2^64`. -/
def committedInv (d : StackDescriptor) : Prop :=
  d.stack_top = (d.stack_bottom + d.stack_size) % uptrMod

instance (d : StackDescriptor) : Decidable (committedInv d) := by
  unfold committedInv; infer_instance

/-- The intermediate states of `SetUserStack`, one entry per single write in
source order: the initial state, then after each of the three field writes
into the temp slot (`stack_bottom`, `stack_top`, `stack_size`), then after
each of the three pointer reassignments (`previous_stack_ = next_stack_`,
`next_stack_ = temp_stack_`, `temp_stack_ = oprev`). -/
def setUserStackTrace (t : AsanThread) (base size : Nat) :
    Option (List AsanThread) :=
  match t.temp_stack_ with
  | none => none
  | some tm =>
    let f1 := updSlot t.stacks_ tm { t.stacks_ tm with stack_bottom := base }
    let s1 := { t with stacks_ := f1 }
    let f2 := updSlot f1 tm { f1 tm with stack_top := (base + size) % uptrMod }
    let s2 := { s1 with stacks_ := f2 }
    let f3 := updSlot f2 tm { f2 tm with stack_size := size }
    let s3 := { s2 with stacks_ := f3 }
    let s4 := { s3 with previous_stack_ := s3.next_stack_ }
    let s5 := { s4 with next_stack_ := some tm }
    let s6 := { s5 with temp_stack_ := t.previous_stack_ }
    some [t, s1, s2, s3, s4, s5, s6]

/-- One operation on the descriptor rotation: a `SetUserStack(base, size)`
call or a `RestorePreviousUserStack()` call. -/
inductive StackOp where
  | set (base size : Nat)
  | restore

/-- Run one `StackOp` on a thread. -/
def applyOp (t : AsanThread) : StackOp → Option AsanThread
  | .set b s => SetUserStack t b s
  | .restore => RestorePreviousUserStack t

/-- Run a sequence of `StackOp`s left to right. -/
def applyOps (t : AsanThread) : List StackOp → Option AsanThread
  | [] => some t
  | op :: ops => (applyOp t op).bind (fun u => applyOps u ops)

/-- The three role pointers are non-null and address three pairwise-distinct
slots of `stacks_`. -/
def RolesDistinct (t : AsanThread) : Prop :=
  ∃ p n tm : Fin 3,
    t.previous_stack_ = some p ∧ t.next_stack_ = some n ∧
    t.temp_stack_ = some tm ∧ p ≠ n ∧ p ≠ tm ∧ n ≠ tm

/-- Concrete thread used by witnesses: previous role holds the empty
descriptor in slot 0, next role holds a committed stack `[1000, 2000)` in
slot 1, temp role is slot 2. -/
def wThread : AsanThread where
  stacks_ := fun i => if i = 1 then ⟨2000, 1000, 1000⟩ else zeroDescriptor
  temp_stack_ := some 2
  next_stack_ := some 1
  previous_stack_ := some 0
  fake_stack_ := 0
  tls_fake_stack := 0
  unwinding_ := false
  in_deadly_signal_ := false

/-- Concrete thread for the C1 counterexample: previous role is slot 0 with
range `[100, 200)`, next role is slot 1 with range `[300, 400)`. -/
def c1Thread : AsanThread where
  stacks_ := fun i =>
    if i = 0 then ⟨200, 100, 100⟩
    else if i = 1 then ⟨400, 300, 100⟩
    else zeroDescriptor
  temp_stack_ := some 2
  next_stack_ := some 1
  previous_stack_ := some 0
  fake_stack_ := 0
  tls_fake_stack := 0
  unwinding_ := false
  in_deadly_signal_ := false

/-- Concrete thread with a live fake stack (pointer value 5), used by the C5
witness. -/
def fsThread : AsanThread :=
  { zeroThread with fake_stack_ := 5, tls_fake_stack := 5 }

/- Helper lemmas about slot updates. -/

theorem updSlot_same (f : Fin 3 → StackDescriptor) (i : Fin 3)
    (d : StackDescriptor) : updSlot f i d i = d := by
  simp [updSlot]

theorem updSlot_other (f : Fin 3 → StackDescriptor) (i j : Fin 3)
    (d : StackDescriptor) (h : j ≠ i) : updSlot f i d j = f j := by
  simp [updSlot, h]

theorem updSlot_updSlot (f : Fin 3 → StackDescriptor) (i : Fin 3)
    (d1 d2 : StackDescriptor) :
    updSlot (updSlot f i d1) i d2 = updSlot f i d2 := by
  funext j
  by_cases h : j = i <;> simp [updSlot, h]

/-- In `Fin 3`, three pairwise-distinct elements cover everything. -/
theorem fin3_cover (p n tm i : Fin 3) (hpn : p ≠ n) (hptm : p ≠ tm)
    (hntm : n ≠ tm) : i = p ∨ i = n ∨ i = tm := by
  revert hpn hptm hntm
  revert p n tm i
  decide

/-- Evaluation of `SetUserStack` when the temp role pointer is non-null. -/
theorem SetUserStack_eq (t : AsanThread) (tm : Fin 3)
    (ht : t.temp_stack_ = some tm) (b s : Nat) :
    SetUserStack t b s = some { t with
      stacks_ := updSlot t.stacks_ tm ⟨(b + s) % uptrMod, b, s⟩,
      previous_stack_ := t.next_stack_,
      next_stack_ := some tm,
      temp_stack_ := t.previous_stack_ } := by
  unfold SetUserStack
  rw [ht]

/-- Evaluation of `RestorePreviousUserStack` when the previous role pointer
is non-null. -/
theorem RestorePreviousUserStack_eq (t : AsanThread) (p : Fin 3)
    (hp : t.previous_stack_ = some p) :
    RestorePreviousUserStack t =
      SetUserStack t ((t.stacks_ p).stack_bottom) ((t.stacks_ p).stack_size) := by
  unfold RestorePreviousUserStack
  rw [hp]

/-- C3 counterexample: the claim says both scoped guards no-op (set no flag,
dereference nothing) on a null thread pointer.  On a null pointer the
`ScopedUnwinding` constructor and destructor dereference it
(`t->setUnwinding(...)` with no null check), modelled as the undefined
behavior result `none`, while `ScopedDeadlySignal` really is a no-op
(`some none`: defined, state unchanged). -/
theorem c3_counterexample :
    ScopedUnwindingEnter none = none ∧
    ScopedUnwindingExit none = none ∧
    ScopedDeadlySignalEnter none = some none ∧
    ScopedDeadlySignalExit none = some none :=
  ⟨rfl, rfl, rfl, rfl⟩

/-- C3 (amended): only the deadly-signal scope accepts a null owning thread
pointer and no-ops on entry and exit when it is null; the unwinding scope
dereferences its thread pointer unconditionally on entry and exit (so it is
only usable with a non-null thread, on which it sets and clears the flag). -/
theorem c3_guard_null_behavior (t : AsanThread) :
    ScopedDeadlySignalEnter none = some none ∧
    ScopedDeadlySignalExit none = some none ∧
    ScopedDeadlySignalEnter (some t) = some (some (setInDeadlySignal t true)) ∧
    ScopedDeadlySignalExit (some t) = some (some (setInDeadlySignal t false)) ∧
    ScopedUnwindingEnter none = none ∧
    ScopedUnwindingExit none = none ∧
    ScopedUnwindingEnter (some t) = some (some (setUnwinding t true)) ∧
    ScopedUnwindingExit (some t) = some (some (setUnwinding t false)) :=
  ⟨rfl, rfl, rfl, rfl, rfl, rfl, rfl, rfl⟩

/-- C4: with `__asan_option_detect_stack_use_after_return` false, the
`fake_stack()` accessor returns null (`0`) and leaves the thread state
unchanged (hence performs no construction), for every thread state, every
prior fake-stack state and every behavior of the lazy initializer; since the
state is unchanged, the same holds on every subsequent call. -/
theorem c4_fake_stack_disabled (lazyInit : AsanThread → Nat × AsanThread)
    (t : AsanThread) :
    fake_stack false lazyInit t = (0, t) :=
  rfl

/-- C5: `DeleteFakeStack(tid)` is a no-op (state unchanged, no `Destroy`
call) when the fake-stack field is null; the second of two consecutive calls
is always a no-op; and when a fake stack reference exists, the call clears
the thread's fake-stack field and the thread-local fast-path slot, invokes
exactly one `FakeStack::Destroy(tid)` on the detached pointer, and leaves
`has_fake_stack()` false. -/
theorem c5_delete_fake_stack (t : AsanThread) (tid tid2 : Int) :
    (t.fake_stack_ = 0 → DeleteFakeStack t tid = (t, [])) ∧
    DeleteFakeStack (DeleteFakeStack t tid).1 tid2 =
      ((DeleteFakeStack t tid).1, []) ∧
    (t.fake_stack_ ≠ 0 →
      (DeleteFakeStack t tid).1.fake_stack_ = 0 ∧
      (DeleteFakeStack t tid).1.tls_fake_stack = 0 ∧
      (DeleteFakeStack t tid).2 = [(t.fake_stack_, tid)] ∧
      has_fake_stack (DeleteFakeStack t tid).1 = false) := by
  refine ⟨fun h => ?_, ?_, fun h => ?_⟩
  · simp [DeleteFakeStack, h]
  · by_cases h : t.fake_stack_ = 0 <;>
      simp [DeleteFakeStack, SetTLSFakeStack, h]
  · simp [DeleteFakeStack, SetTLSFakeStack, has_fake_stack, h]

/-- C5 witness: on the zero thread the call is a no-op, and on a thread with
fake-stack pointer value 5 the call detaches and invokes `Destroy(7)` once,
leaving `has_fake_stack()` false. -/
theorem c5_witness :
    DeleteFakeStack zeroThread 7 = (zeroThread, []) ∧
    (DeleteFakeStack fsThread 7).1.fake_stack_ = 0 ∧
    (DeleteFakeStack fsThread 7).1.tls_fake_stack = 0 ∧
    (DeleteFakeStack fsThread 7).2 = [(5, 7)] ∧
    has_fake_stack (DeleteFakeStack fsThread 7).1 = false :=
  ⟨(c5_delete_fake_stack zeroThread 7 0).1 rfl,
   ((c5_delete_fake_stack fsThread 7 0).2.2 (by decide)).1,
   ((c5_delete_fake_stack fsThread 7 0).2.2 (by decide)).2.1,
   ((c5_delete_fake_stack fsThread 7 0).2.2 (by decide)).2.2.1,
   ((c5_delete_fake_stack fsThread 7 0).2.2 (by decide)).2.2.2⟩

/-- C8: in the zero-initialized state, `has_fake_stack()` is false,
`DeleteFakeStack` is a no-op, both reentrancy flags read false — but the
public stack accessors can NOT be evaluated: `CurrentStack()` (and hence
`stack_top()` and `AddrIsInStack(addr)`) dereferences the null
`previous_stack_` pointer, modelled as the undefined-behavior result `none`.
This contradicts the source's own NOTE that the object must be valid in
zero-initialized state. -/
theorem c8_zero_state :
    has_fake_stack zeroThread = false ∧
    DeleteFakeStack zeroThread 3 = (zeroThread, []) ∧
    zeroThread.unwinding_ = false ∧
    zeroThread.in_deadly_signal_ = false ∧
    CurrentStack zeroThread 0 = none ∧
    stack_top zeroThread 0 = none ∧
    stack_bottom zeroThread 0 = none ∧
    stack_size zeroThread 0 = none ∧
    AddrIsInStackT zeroThread 0 0 = none :=
  ⟨rfl, rfl, rfl, rfl, rfl, rfl, rfl, rfl, rfl⟩

/-- C1 counterexample: the claim says `AddrIsInStack(addr)` is true iff the
address lies in exactly one of the two committed slots' ranges.  In
`c1Thread` (previous = `[100, 200)`, next = `[300, 400)`), address 150 lies
in exactly one committed slot (the previous one), yet with the caller
standing on the next stack (`sp = 350`) the test returns false, because the
code only consults `CurrentStack()`. -/
theorem c1_counterexample :
    AddrIsInStack (c1Thread.stacks_ 0) 150 = true ∧
    AddrIsInStack (c1Thread.stacks_ 1) 150 = false ∧
    c1Thread.previous_stack_ = some 0 ∧
    c1Thread.next_stack_ = some 1 ∧
    c1Thread.temp_stack_ = some 2 ∧
    AddrIsInStackT c1Thread 350 150 = some false := by
  refine ⟨by decide, by decide, rfl, rfl, rfl, by decide⟩

/-- C1 (amended): `AddrIsInStack(addr)` returns true iff the address lies in
the [bottom, top) range of the single current committed slot — previous if
the caller's stack address `sp` lies in previous's range, otherwise next —
and it never consults the slot in the temp role: rewriting the temp slot's
contents arbitrarily does not change the result.  An address lying only in
the non-current committed slot is reported as not in stack. -/
theorem c1_membership_current_slot (t : AsanThread) (p n tm : Fin 3)
    (d : StackDescriptor) (sp addr : Nat)
    (hp : t.previous_stack_ = some p) (hn : t.next_stack_ = some n)
    (ht : t.temp_stack_ = some tm) (htp : tm ≠ p) (htn : tm ≠ n) :
    AddrIsInStackT t sp addr =
      some (AddrIsInStack
        (t.stacks_ (if AddrIsInStack (t.stacks_ p) sp then p else n)) addr) ∧
    AddrIsInStackT { t with stacks_ := updSlot t.stacks_ tm d } sp addr =
      AddrIsInStackT t sp addr := by
  have e1 : updSlot t.stacks_ tm d p = t.stacks_ p :=
    updSlot_other _ _ _ _ (Ne.symm htp)
  have e2 : updSlot t.stacks_ tm d n = t.stacks_ n :=
    updSlot_other _ _ _ _ (Ne.symm htn)
  by_cases h : AddrIsInStack (t.stacks_ p) sp
  all_goals
    simp [AddrIsInStackT, CurrentStack, AddrIsInStackP, hp, hn, h, e1, e2]

/-- C1 witness: the amended theorem applied to `c1Thread` with the caller on
the next stack. -/
theorem c1_witness :
    AddrIsInStackT c1Thread 350 150 =
      some (AddrIsInStack
        (c1Thread.stacks_
          (if AddrIsInStack (c1Thread.stacks_ 0) 350 then 0 else 1)) 150) ∧
    AddrIsInStackT { c1Thread with
        stacks_ := updSlot c1Thread.stacks_ 2 ⟨50, 10, 40⟩ } 350 150 =
      AddrIsInStackT c1Thread 350 150 :=
  c1_membership_current_slot c1Thread 0 1 2 ⟨50, 10, 40⟩ 350 150 rfl rfl rfl
    (by decide) (by decide)

/-- C7: `CurrentStack()` returns the previous-role pointer exactly when the
caller's stack address lies in the previous slot's [bottom, top) range, and
the next-role pointer in every other case; `stack_top()`, `stack_bottom()`,
`stack_size()` and `AddrIsInStack(addr)` all resolve through this rule. -/
theorem c7_current_stack_resolution (t : AsanThread) (p n : Fin 3)
    (sp addr : Nat)
    (hp : t.previous_stack_ = some p) (hn : t.next_stack_ = some n)
    (hpn : p ≠ n) :
    (CurrentStack t sp = some (some p) ↔
      AddrIsInStack (t.stacks_ p) sp = true) ∧
    (AddrIsInStack (t.stacks_ p) sp = false →
      CurrentStack t sp = some (some n)) ∧
    stack_top t sp =
      some ((t.stacks_
        (if AddrIsInStack (t.stacks_ p) sp then p else n)).stack_top) ∧
    stack_bottom t sp =
      some ((t.stacks_
        (if AddrIsInStack (t.stacks_ p) sp then p else n)).stack_bottom) ∧
    stack_size t sp =
      some ((t.stacks_
        (if AddrIsInStack (t.stacks_ p) sp then p else n)).stack_size) ∧
    AddrIsInStackT t sp addr =
      some (AddrIsInStack
        (t.stacks_ (if AddrIsInStack (t.stacks_ p) sp then p else n)) addr) := by
  by_cases h : AddrIsInStack (t.stacks_ p) sp
  all_goals
    simp [CurrentStack, AddrIsInStackP, AddrIsInStackT, stack_top,
      stack_bottom, stack_size, hp, hn, h, hpn, Ne.symm hpn]

/-- C7 witness: the theorem applied to `c1Thread` with the caller standing on
the next stack (`sp = 350`). -/
theorem c7_witness :
    (CurrentStack c1Thread 350 = some (some 0) ↔
      AddrIsInStack (c1Thread.stacks_ 0) 350 = true) ∧
    (AddrIsInStack (c1Thread.stacks_ 0) 350 = false →
      CurrentStack c1Thread 350 = some (some 1)) ∧
    stack_top c1Thread 350 =
      some ((c1Thread.stacks_
        (if AddrIsInStack (c1Thread.stacks_ 0) 350 then 0 else 1)).stack_top) ∧
    stack_bottom c1Thread 350 =
      some ((c1Thread.stacks_
        (if AddrIsInStack (c1Thread.stacks_ 0) 350 then 0 else 1)).stack_bottom) ∧
    stack_size c1Thread 350 =
      some ((c1Thread.stacks_
        (if AddrIsInStack (c1Thread.stacks_ 0) 350 then 0 else 1)).stack_size) ∧
    AddrIsInStackT c1Thread 350 150 =
      some (AddrIsInStack
        (c1Thread.stacks_
          (if AddrIsInStack (c1Thread.stacks_ 0) 350 then 0 else 1)) 150) :=
  c7_current_stack_resolution c1Thread 0 1 350 150 rfl rfl (by decide)

/-- C9: `SetUserStack(base, size)` establishes the descriptor invariant for
the newly committed slot (`top = base + size` in `uptr` arithmetic,
`bottom = base`, `size = size`) and the rotation preserves it for the other
committed slot (the old next, now previous); the old previous slot moves to
the temp role, the only role in which inconsistency is permitted. -/
theorem c9_committed_size_invariant (t : AsanThread) (n tm : Fin 3) (b s : Nat)
    (hn : t.next_stack_ = some n) (ht : t.temp_stack_ = some tm)
    (hntm : n ≠ tm) (hinv : committedInv (t.stacks_ n)) :
    ∃ u, SetUserStack t b s = some u ∧
      u.previous_stack_ = some n ∧
      u.next_stack_ = some tm ∧
      u.temp_stack_ = t.previous_stack_ ∧
      u.stacks_ tm = ⟨(b + s) % uptrMod, b, s⟩ ∧
      committedInv (u.stacks_ tm) ∧
      committedInv (u.stacks_ n) ∧
      u.stacks_ n = t.stacks_ n := by
  refine ⟨_, SetUserStack_eq t tm ht b s, hn, rfl, rfl, updSlot_same _ _ _,
    ?_, ?_, ?_⟩
  · show committedInv (updSlot t.stacks_ tm ⟨(b + s) % uptrMod, b, s⟩ tm)
    rw [updSlot_same]
    exact rfl
  · show committedInv (updSlot t.stacks_ tm ⟨(b + s) % uptrMod, b, s⟩ n)
    rw [updSlot_other _ _ _ _ hntm]
    exact hinv
  · exact updSlot_other _ _ _ _ hntm

/-- C9 witness: the theorem applied to `wThread` (committed next slot
`[1000, 2000)`) with `SetUserStack(4096, 4096)`. -/
theorem c9_witness :
    ∃ u, SetUserStack wThread 4096 4096 = some u ∧
      u.previous_stack_ = some 1 ∧
      u.next_stack_ = some 2 ∧
      u.temp_stack_ = wThread.previous_stack_ ∧
      u.stacks_ 2 = ⟨(4096 + 4096) % uptrMod, 4096, 4096⟩ ∧
      committedInv (u.stacks_ 2) ∧
      committedInv (u.stacks_ 1) ∧
      u.stacks_ 1 = wThread.stacks_ 1 :=
  c9_committed_size_invariant wThread 1 2 4096 4096 rfl rfl (by decide)
    (by decide)

/-- C2: for a thread with three pairwise-distinct committed role pointers
whose next slot satisfies the descriptor invariant, if the caller's stack
address is outside the previous slot's range (so the descriptor current
before the call is the next-role one) and outside the newly installed range,
then after `SetUserStack(b, s)` followed by `RestorePreviousUserStack()` the
accessors resolved through `CurrentStack()` yield exactly the bounds that
were current before the `SetUserStack` call. -/
theorem c2_restore_returns_prior_bounds (t : AsanThread) (p n tm : Fin 3)
    (b s sp : Nat)
    (hp : t.previous_stack_ = some p) (hn : t.next_stack_ = some n)
    (ht : t.temp_stack_ = some tm)
    (hpn : p ≠ n) (hptm : p ≠ tm) (hntm : n ≠ tm)
    (hinv : committedInv (t.stacks_ n))
    (hsp_prev : AddrIsInStack (t.stacks_ p) sp = false)
    (hsp_new : AddrIsInStack ⟨(b + s) % uptrMod, b, s⟩ sp = false) :
    CurrentStack t sp = some (some n) ∧
    ((SetUserStack t b s).bind RestorePreviousUserStack).bind
        (fun u => stack_bottom u sp) = some ((t.stacks_ n).stack_bottom) ∧
    ((SetUserStack t b s).bind RestorePreviousUserStack).bind
        (fun u => stack_top u sp) = some ((t.stacks_ n).stack_top) ∧
    ((SetUserStack t b s).bind RestorePreviousUserStack).bind
        (fun u => stack_size u sp) = some ((t.stacks_ n).stack_size) := by
  have hinv' : (t.stacks_ n).stack_top =
      ((t.stacks_ n).stack_bottom + (t.stacks_ n).stack_size) % uptrMod := hinv
  have h1 := SetUserStack_eq t tm ht b s
  rw [h1]
  have h2 := RestorePreviousUserStack_eq
    ({ t with
        stacks_ := updSlot t.stacks_ tm ⟨(b + s) % uptrMod, b, s⟩,
        previous_stack_ := t.next_stack_,
        next_stack_ := some tm,
        temp_stack_ := t.previous_stack_ } : AsanThread) n hn
  have hsn : updSlot t.stacks_ tm ⟨(b + s) % uptrMod, b, s⟩ n = t.stacks_ n :=
    updSlot_other _ _ _ _ hntm
  refine ⟨by simp [CurrentStack, AddrIsInStackP, hp, hn, hsp_prev], ?_, ?_, ?_⟩
  all_goals
    simp only [Option.some_bind]
    rw [h2]
    simp only [hsn]
    rw [SetUserStack_eq _ p hp
      ((t.stacks_ n).stack_bottom) ((t.stacks_ n).stack_size)]
    simp only [Option.some_bind]
    simp [stack_bottom, stack_top, stack_size, CurrentStack, AddrIsInStackP,
      updSlot_same, updSlot_other, Ne.symm hptm, hsp_new, hinv']

/-- C2 witness: on `wThread` (original committed bounds `[1000, 2000)` in
the next slot, caller at `sp = 1500`), after `SetUserStack(4096, 4096)` and
`RestorePreviousUserStack()` the accessors again report the original
`[1000, 2000)` bounds. -/
theorem c2_witness :
    CurrentStack wThread 1500 = some (some 1) ∧
    ((SetUserStack wThread 4096 4096).bind RestorePreviousUserStack).bind
        (fun u => stack_bottom u 1500) = some ((wThread.stacks_ 1).stack_bottom) ∧
    ((SetUserStack wThread 4096 4096).bind RestorePreviousUserStack).bind
        (fun u => stack_top u 1500) = some ((wThread.stacks_ 1).stack_top) ∧
    ((SetUserStack wThread 4096 4096).bind RestorePreviousUserStack).bind
        (fun u => stack_size u 1500) = some ((wThread.stacks_ 1).stack_size) :=
  c2_restore_returns_prior_bounds wThread 0 1 2 4096 4096 1500 rfl rfl rfl
    (by decide) (by decide) (by decide) (by decide) (by decide) (by decide)

/-- One rotation step (either operation) succeeds on a thread with distinct
non-null roles and preserves that property: the roles are permuted
cyclically (previous gets next's slot, next gets temp's, temp gets
previous's). -/
theorem applyOp_preserves (t : AsanThread) (op : StackOp)
    (h : RolesDistinct t) : ∃ u, applyOp t op = some u ∧ RolesDistinct u := by
  obtain ⟨p, n, tm, hp, hn, ht, hpn, hptm, hntm⟩ := h
  cases op with
  | set b s =>
      refine ⟨_, SetUserStack_eq t tm ht b s,
        n, tm, p, ?_, ?_, ?_, hntm, Ne.symm hpn, Ne.symm hptm⟩
      · exact hn
      · exact rfl
      · exact hp
  | restore =>
      have heq : applyOp t StackOp.restore = some { t with
          stacks_ := updSlot t.stacks_ tm
            ⟨((t.stacks_ p).stack_bottom + (t.stacks_ p).stack_size) % uptrMod,
              (t.stacks_ p).stack_bottom, (t.stacks_ p).stack_size⟩,
          previous_stack_ := t.next_stack_,
          next_stack_ := some tm,
          temp_stack_ := t.previous_stack_ } := by
        show RestorePreviousUserStack t = _
        rw [RestorePreviousUserStack_eq t p hp]
        exact SetUserStack_eq t tm ht _ _
      refine ⟨_, heq, n, tm, p, ?_, ?_, ?_, hntm, Ne.symm hpn, Ne.symm hptm⟩
      · exact hn
      · exact rfl
      · exact hp

/-- C10: starting from any thread whose three role pointers address three
pairwise-distinct slots of `stacks_`, any sequence of `SetUserStack` and
`RestorePreviousUserStack` calls succeeds and leaves the role pointers
addressing three pairwise-distinct slots that cover all of
`stacks_[0..2]` — no role is ever lost or duplicated. -/
theorem c10_roles_permutation (ops : List StackOp) (t : AsanThread)
    (h : RolesDistinct t) :
    ∃ u, applyOps t ops = some u ∧ RolesDistinct u ∧
      ∀ i : Fin 3, u.previous_stack_ = some i ∨ u.next_stack_ = some i ∨
        u.temp_stack_ = some i := by
  induction ops generalizing t with
  | nil =>
      refine ⟨t, rfl, h, ?_⟩
      obtain ⟨p, n, tm, hp, hn, ht, hpn, hptm, hntm⟩ := h
      intro i
      rcases fin3_cover p n tm i hpn hptm hntm with h1 | h1 | h1 <;> subst h1
      exacts [Or.inl hp, Or.inr (Or.inl hn), Or.inr (Or.inr ht)]
  | cons op ops ih =>
      obtain ⟨u, hu, hru⟩ := applyOp_preserves t op h
      obtain ⟨v, hv, hrv, hcov⟩ := ih u hru
      exact ⟨v, by simp [applyOps, hu, hv], hrv, hcov⟩

/-- C10 witness: the theorem applied to `wThread` and a concrete three-call
sequence. -/
theorem c10_witness :
    ∃ u, applyOps wThread
        [StackOp.set 4096 4096, StackOp.restore, StackOp.set 50 60] = some u ∧
      RolesDistinct u ∧
      ∀ i : Fin 3, u.previous_stack_ = some i ∨ u.next_stack_ = some i ∨
        u.temp_stack_ = some i :=
  c10_roles_permutation [StackOp.set 4096 4096, StackOp.restore,
      StackOp.set 50 60] wThread
    ⟨0, 1, 2, rfl, rfl, rfl, by decide, by decide, by decide⟩

/-- C6: the intermediate-state trace of `SetUserStack` has exactly seven
states (initial, three field writes into the temp slot, three single-word
pointer reassignments), ends in the `SetUserStack` result, follows exactly
the pointer progression previous := next, next := temp, temp := old
previous, leaves the descriptor array untouched during the three pointer
reassignments (the new descriptor is fully written before the first of
them), and after every single write at least one of the previous/next role
pointers designates a descriptor holding valid (invariant-satisfying),
fully written stack information. -/
theorem c6_rotation_trace_safe (t : AsanThread) (p n tm : Fin 3) (b s : Nat)
    (hp : t.previous_stack_ = some p) (hn : t.next_stack_ = some n)
    (ht : t.temp_stack_ = some tm) (htp : tm ≠ p) (htn : tm ≠ n)
    (hinv : committedInv (t.stacks_ n)) :
    ∃ l, setUserStackTrace t b s = some l ∧
      l.length = 7 ∧
      l.head? = some t ∧
      l.getLast? = SetUserStack t b s ∧
      l.map (fun u => (u.previous_stack_, u.next_stack_, u.temp_stack_)) =
        [(some p, some n, some tm), (some p, some n, some tm),
         (some p, some n, some tm), (some p, some n, some tm),
         (some n, some n, some tm), (some n, some tm, some tm),
         (some n, some tm, some p)] ∧
      (∀ u ∈ l.drop 3,
        u.stacks_ = updSlot t.stacks_ tm ⟨(b + s) % uptrMod, b, s⟩) ∧
      (∀ u ∈ l, ∃ i, (u.previous_stack_ = some i ∨ u.next_stack_ = some i) ∧
        u.stacks_ i = t.stacks_ n ∧ committedInv (u.stacks_ i)) := by
  have hup : ∀ (f : Fin 3 → StackDescriptor) (d : StackDescriptor),
      updSlot f tm d n = f n :=
    fun f d => updSlot_other f tm n d (Ne.symm htn)
  unfold setUserStackTrace
  rw [ht]
  refine ⟨_, rfl, rfl, rfl, ?_, ?_, ?_, ?_⟩
  · rw [SetUserStack_eq t tm ht b s]
    simp [updSlot_updSlot, updSlot_same]
  · simp [hp, hn, ht]
  · intro u hu
    simp only [List.drop, List.mem_cons, List.not_mem_nil, or_false] at hu
    rcases hu with h | h | h | h <;> subst h <;>
      simp [updSlot_updSlot, updSlot_same]
  · intro u hu
    simp only [List.mem_cons, List.not_mem_nil, or_false] at hu
    rcases hu with h | h | h | h | h | h | h
    · subst h
      exact ⟨n, Or.inr hn, rfl, hinv⟩
    all_goals subst h
    all_goals refine ⟨n, ?_, ?_, ?_⟩
    any_goals first
      | exact Or.inr hn
      | exact Or.inl hn
    all_goals simp only [hup]
    all_goals exact hinv

/-- C6 witness: the trace theorem applied to `wThread` with
`SetUserStack(4096, 4096)`. -/
theorem c6_witness :
    ∃ l, setUserStackTrace wThread 4096 4096 = some l ∧
      l.length = 7 ∧
      l.head? = some wThread ∧
      l.getLast? = SetUserStack wThread 4096 4096 ∧
      l.map (fun u => (u.previous_stack_, u.next_stack_, u.temp_stack_)) =
        [(some 0, some 1, some 2), (some 0, some 1, some 2),
         (some 0, some 1, some 2), (some 0, some 1, some 2),
         (some 1, some 1, some 2), (some 1, some 2, some 2),
         (some 1, some 2, some 0)] ∧
      (∀ u ∈ l.drop 3,
        u.stacks_ = updSlot wThread.stacks_ 2 ⟨(4096 + 4096) % uptrMod, 4096, 4096⟩) ∧
      (∀ u ∈ l, ∃ i, (u.previous_stack_ = some i ∨ u.next_stack_ = some i) ∧
        u.stacks_ i = wThread.stacks_ 1 ∧ committedInv (u.stacks_ i)) :=
  c6_rotation_trace_safe wThread 0 1 2 4096 4096 rfl rfl rfl (by decide)
    (by decide) (by decide)

end Asan
